import Mathlib

/-!
Shallow embedding of the PinePhone modem power controller
(src/drivers/modem/pinephone/power.h, struct Modem::Power).

The C++ struct holds a requested power intent, a hardware-state estimate,
two elapsed-second counters, six digital output pins and one digital input
status pin, plus a blocking delayer.  We embed it as a Lean structure that
additionally records, for verification purposes, the trace of externally
visible effects (pin writes, sleeps, log lines), the trace of values
assigned to the state field, and a read index into an ambient stream of
status-line readings `r : Nat -> Bool` (each call of the C++ method
`_pin_status.state()` consumes the next reading).
-/

namespace ModemPower

/-- Mirrors `enum class Requested { DONT_CARE, OFF, ON }`. -/
inductive Requested
  | dontCare
  | off
  | on
deriving DecidableEq, Repr

/-- Mirrors `enum class State { UNKNOWN, OFF, STARTING_UP, ON, SHUTTING_DOWN }`. -/
inductive State
  | unknown
  | off
  | startingUp
  | on
  | shuttingDown
deriving DecidableEq, Repr

/-- The six digital output lines of the controller. -/
inductive Pin
  | battery
  | dtr
  | enable
  | hostReady
  | pwrkey
  | reset
deriving DecidableEq, Repr

/-- Current levels of the six output lines. -/
structure Pins where
  battery : Bool
  dtr : Bool
  enable : Bool
  hostReady : Bool
  pwrkey : Bool
  reset : Bool
deriving DecidableEq, Repr

/-- An externally visible effect: a pin write, a blocking delay, or a log line. -/
inductive Event
  | write (p : Pin) (v : Bool)
  | msleep (ms : Nat)
  | logMsg (s : String)
deriving DecidableEq, Repr

/-- The controller state: the four data fields of `Modem::Power` plus the
verification bookkeeping (pin levels, read index, effect trace, trace of
values assigned to `_state`). -/
structure Power where
  requested : Requested
  state : State
  startup_seconds : Nat
  shutdown_seconds : Nat
  pins : Pins
  ridx : Nat
  events : List Event
  strace : List State
deriving DecidableEq, Repr

/-- Update one output-pin level. -/
def set_pin (p : Pin) (v : Bool) (ps : Pins) : Pins :=
  match p with
  | Pin.battery => { ps with battery := v }
  | Pin.dtr => { ps with dtr := v }
  | Pin.enable => { ps with enable := v }
  | Pin.hostReady => { ps with hostReady := v }
  | Pin.pwrkey => { ps with pwrkey := v }
  | Pin.reset => { ps with reset := v }

/-- Append an effect to the trace. -/
def emit (e : Event) (m : Power) : Power :=
  { m with events := m.events ++ [e] }

/-- `_pin_xxx.state(v)`: drive an output line and record the write. -/
def pin_write (p : Pin) (v : Bool) (m : Power) : Power :=
  { m with pins := set_pin p v m.pins, events := m.events ++ [Event.write p v] }

/-- `_delayer.msleep(ms)`: record the blocking delay. -/
def msleep (ms : Nat) (m : Power) : Power :=
  emit (Event.msleep ms) m

/-- Assignment to the `_state` field; the assigned value is also recorded in
the state-assignment trace. -/
def set_state (s : State) (m : Power) : Power :=
  { m with state := s, strace := m.strace ++ [s] }

/-- `_update_state_from_pin_status()`:
`_state = _pin_status.state() ? State::OFF : State::ON;` -/
def update_state_from_pin_status (r : Nat → Bool) (m : Power) : Power :=
  let v := r m.ridx
  let m1 := { m with ridx := m.ridx + 1 }
  set_state (if v then State.off else State.on) m1

/-- `shutdown_triggered()`: reset the shutdown counter and enter SHUTTING_DOWN. -/
def shutdown_triggered (m : Power) : Power :=
  set_state State.shuttingDown { m with shutdown_seconds := 0 }

/-- `_drive_power_up()`, translated statement by statement from the source. -/
def drive_power_up (r : Nat → Bool) (m : Power) : Power :=
  let m1 := if m.state = State.unknown then update_state_from_pin_status r m else m
  match m1.state with
  | State.off =>
    let m2 := emit (Event.logMsg "Powering up modem ...") m1
    let m3 := pin_write Pin.pwrkey true m2
    let m4 := msleep 1000 m3
    let m5 := pin_write Pin.pwrkey false m4
    set_state State.startingUp { m5 with startup_seconds := 0 }
  | State.startingUp =>
    let m2 := { m1 with startup_seconds := m1.startup_seconds + 1 }
    let v := r m2.ridx
    let m3 := { m2 with ridx := m2.ridx + 1 }
    if v = false then set_state State.on m3 else m3
  | _ => m1

/-- `_drive_power_down()`, translated statement by statement from the source. -/
def drive_power_down (r : Nat → Bool) (m : Power) : Power :=
  let m1 := if m.state = State.unknown then update_state_from_pin_status r m else m
  match m1.state with
  | State.startingUp | State.on =>
    let m2 := pin_write Pin.reset true m1
    let m3 := pin_write Pin.enable true m2
    let m4 := emit (Event.logMsg "Powering down modem ...") m3
    let m5 := pin_write Pin.pwrkey true m4
    let m6 := msleep 1000 m5
    let m7 := pin_write Pin.pwrkey false m6
    shutdown_triggered m7
  | State.shuttingDown =>
    let m2 := { m1 with shutdown_seconds := m1.shutdown_seconds + 1 }
    let v := r m2.ridx
    let m3 := { m2 with ridx := m2.ridx + 1 }
    if v = true then set_state State.off m3 else m3
  | _ => m1

/-- A configuration record: an optional boolean `power` attribute and an
optional boolean `at_protocol` attribute, mirroring the `Xml_node` accesses
made by `apply_config`. -/
structure Config where
  power : Option Bool
  at_protocol : Option Bool
deriving DecidableEq, Repr

/-- `config.has_attribute("power")`. -/
def Config.has_attribute_power (c : Config) : Bool :=
  c.power.isSome

/-- `config.attribute_value("power", false)`. -/
def Config.power_attribute_value (c : Config) : Bool :=
  c.power.getD false

/-- `config.attribute_value("at_protocol", true)`. -/
def Config.at_protocol_value (c : Config) : Bool :=
  c.at_protocol.getD true

/-- `apply_config(Xml_node const &config)`, translated from the source. -/
def apply_config (c : Config) (m : Power) : Power :=
  if ¬ c.has_attribute_power then { m with requested := Requested.dontCare }
  else
    let m1 := if c.power_attribute_value then { m with requested := Requested.on } else m
    let power_down_without_at_protocol : Bool :=
      (! c.power_attribute_value) && (! c.at_protocol_value)
    if power_down_without_at_protocol then { m1 with requested := Requested.off } else m1

/-- One iteration body of the loop in `drive_state_transitions()`: dispatch
on the requested intent. -/
def drive_step (r : Nat → Bool) (m : Power) : Power :=
  match m.requested with
  | Requested.dontCare => m
  | Requested.on => drive_power_up r m
  | Requested.off => drive_power_down r m

/-- The loop of `drive_state_transitions()` with explicit fuel: run a step,
stop as soon as a step leaves the state unchanged.  The C++ loop carries no
fuel; theorem `drive_loop_terminates` below shows that every fuel of at
least 4 computes the same result, so the fuelled function agrees with the
source. -/
def drive_aux (r : Nat → Bool) : Nat → Power → Power
  | 0, m => m
  | f + 1, m =>
    let m1 := drive_step r m
    if m1.state = m.state then m1 else drive_aux r f m1

/-- `drive_state_transitions()`. -/
def drive_state_transitions (r : Nat → Bool) (m : Power) : Power :=
  drive_aux r 4 m

/-- The constructor `Power(Env&, Delayer&)`: starting from the default field
values and arbitrary initial pin levels `p0`, run the fixed bring-up
sequence from the source. -/
def construct (p0 : Pins) : Power :=
  let m : Power :=
    { requested := Requested.dontCare, state := State.unknown,
      startup_seconds := 0, shutdown_seconds := 0,
      pins := p0, ridx := 0, events := [], strace := [] }
  let m1 := pin_write Pin.battery true m
  let m2 := msleep 30 m1
  let m3 := pin_write Pin.reset false m2
  let m4 := pin_write Pin.hostReady false m3
  let m5 := pin_write Pin.dtr false m4
  let m6 := pin_write Pin.enable false m5
  msleep 30 m6

/-- An attribute written by `generate_report` to the XML generator. -/
inductive Attr
  | strA (name : String) (value : String)
  | natA (name : String) (value : Nat)
deriving DecidableEq, Repr

/-- The `power_value` lambda inside `generate_report`. -/
def power_value : State → String
  | State.unknown => "unknown"
  | State.off => "off"
  | State.startingUp => "starting up"
  | State.on => "on"
  | State.shuttingDown => "shutting down"

/-- `generate_report(Xml_generator &xml)`: the attributes written, in order. -/
def generate_report (m : Power) : List Attr :=
  let l1 := [Attr.strA "power" (power_value m.state)]
  let l2 := if m.state = State.startingUp
            then l1 ++ [Attr.natA "startup_seconds" m.startup_seconds] else l1
  if m.state = State.shuttingDown
  then l2 ++ [Attr.natA "shutdown_seconds" m.shutdown_seconds] else l2

/-- Name of a written attribute. -/
def attr_name : Attr → String
  | Attr.strA n _ => n
  | Attr.natA n _ => n

/-- Whether the report contains an attribute of the given name. -/
def report_has (l : List Attr) (n : String) : Bool :=
  l.any fun a => attr_name a = n

/-- All output lines low: a concrete pin valuation for witnesses. -/
def pins0 : Pins := ⟨false, false, false, false, false, false⟩

/-- A concrete controller value for witnesses and counterexamples: the
default-initialized fields of `Modem::Power` with empty traces. -/
def power0 : Power :=
  { requested := Requested.dontCare, state := State.unknown,
    startup_seconds := 0, shutdown_seconds := 0,
    pins := pins0, ridx := 0, events := [], strace := [] }

/-- Modelled from the amended claim C2: the intent after a configuration is
a function of the last config and the intent held before the call. -/
def intent_after (c : Config) (prev : Requested) : Requested :=
  match c.power with
  | none => Requested.dontCare
  | some true => Requested.on
  | some false => if c.at_protocol_value then prev else Requested.off

/-- Hardware State matches what Desired Intent implies. -/
def converged (m : Power) : Prop :=
  match m.requested with
  | Requested.dontCare => True
  | Requested.on => m.state = State.on
  | Requested.off => m.state = State.off

/-- The six state-machine edges enumerated by the claim (Starting-up to
Shutting-down is missing from this list). -/
def claimed_edge : State → State → Bool
  | State.unknown, State.off => true
  | State.unknown, State.on => true
  | State.off, State.startingUp => true
  | State.startingUp, State.on => true
  | State.on, State.shuttingDown => true
  | State.shuttingDown, State.off => true
  | _, _ => false

/-- The state-machine edges the code actually follows: the claimed six plus
Starting-up to Shutting-down (power-down requested during startup). -/
def edge : State → State → Bool
  | State.unknown, State.off => true
  | State.unknown, State.on => true
  | State.off, State.startingUp => true
  | State.startingUp, State.on => true
  | State.startingUp, State.shuttingDown => true
  | State.on, State.shuttingDown => true
  | State.shuttingDown, State.off => true
  | _, _ => false

/-- Number of power-key assert events (each pulse asserts exactly once). -/
def countPwrkeyAssert (l : List Event) : Nat :=
  l.countP fun e => e == Event.write Pin.pwrkey true

/-- Number of blocking-delay events. -/
def countSleeps (l : List Event) : Nat :=
  l.countP fun e => match e with | Event.msleep _ => true | _ => false

/-- Number of writes driving the reset line low. -/
def countResetDeassert (l : List Event) : Nat :=
  l.countP fun e => e == Event.write Pin.reset false

/-- Number of writes driving the RF-enable line low. -/
def countEnableDeassert (l : List Event) : Nat :=
  l.countP fun e => e == Event.write Pin.enable false

/-- A public operation on a constructed controller. -/
inductive Op
  | configOp (c : Config)
  | driveOp
  | shutdownOp
deriving Repr

/-- Run a sequence of public operations against the controller. -/
def run (r : Nat → Bool) : List Op → Power → Power
  | [], m => m
  | Op.configOp c :: ops, m => run r ops (apply_config c m)
  | Op.driveOp :: ops, m => run r ops (drive_state_transitions r m)
  | Op.shutdownOp :: ops, m => run r ops (shutdown_triggered m)

/-- Verification artifact: an upper bound on the number of state-changing
iterations the drive loop can still perform from a given controller state. -/
def chain_bound (m : Power) : Nat :=
  match m.requested, m.state with
  | Requested.dontCare, _ => 0
  | Requested.on, State.unknown => 2
  | Requested.on, State.off => 2
  | Requested.on, State.startingUp => 1
  | Requested.on, State.on => 0
  | Requested.on, State.shuttingDown => 0
  | Requested.off, State.unknown => 2
  | Requested.off, State.off => 0
  | Requested.off, State.startingUp => 2
  | Requested.off, State.on => 2
  | Requested.off, State.shuttingDown => 1

lemma drive_aux_eq_of_fix (r : Nat → Bool) (f : Nat) (m : Power)
    (h : (drive_step r m).state = m.state) :
    drive_aux r (f + 1) m = drive_step r m := by
  simp [drive_aux, h]

lemma drive_aux_eq_of_ne (r : Nat → Bool) (f : Nat) (m : Power)
    (h : ¬ (drive_step r m).state = m.state) :
    drive_aux r (f + 1) m = drive_aux r f (drive_step r m) := by
  simp [drive_aux, h]

lemma chain_bound_decreases (r : Nat → Bool) (m : Power)
    (h : ¬ (drive_step r m).state = m.state) :
    chain_bound (drive_step r m) < chain_bound m := by
  obtain ⟨req, st, su, sd, ps, ri, ev, tr⟩ := m
  cases req <;> cases st <;> by_cases hv : r ri <;>
    simp [drive_step, drive_power_up, drive_power_down,
          update_state_from_pin_status, set_state, pin_write, emit, msleep,
          shutdown_triggered, chain_bound, hv] at h ⊢

lemma chain_bound_le_two (m : Power) : chain_bound m ≤ 2 := by
  obtain ⟨req, st, su, sd, ps, ri, ev, tr⟩ := m
  cases req <;> cases st <;> simp [chain_bound]

lemma drive_aux_bound_congr (r : Nat → Bool) :
    ∀ (f g : Nat) (m : Power), chain_bound m < f → chain_bound m < g →
      drive_aux r f m = drive_aux r g m := by
  intro f
  induction f with
  | zero => intro g m hf _; exact absurd hf (Nat.not_lt_zero _)
  | succ f ih =>
    intro g m hf hg
    cases g with
    | zero => exact absurd hg (Nat.not_lt_zero _)
    | succ g =>
      by_cases hfix : (drive_step r m).state = m.state
      · rw [drive_aux_eq_of_fix r f m hfix, drive_aux_eq_of_fix r g m hfix]
      · rw [drive_aux_eq_of_ne r f m hfix, drive_aux_eq_of_ne r g m hfix]
        have hlt := chain_bound_decreases r m hfix
        exact ih g (drive_step r m) (by omega) (by omega)

lemma drive_step_no_deassert (r : Nat → Bool) (m : Power) :
    countResetDeassert (drive_step r m).events = countResetDeassert m.events ∧
    countEnableDeassert (drive_step r m).events = countEnableDeassert m.events ∧
    (m.pins.reset = true → (drive_step r m).pins.reset = true) ∧
    (m.pins.enable = true → (drive_step r m).pins.enable = true) := by
  obtain ⟨req, st, su, sd, ps, ri, ev, tr⟩ := m
  cases req <;> cases st <;> by_cases hv : r ri <;>
    simp [drive_step, drive_power_up, drive_power_down,
          update_state_from_pin_status, set_state, pin_write, emit, msleep,
          shutdown_triggered, set_pin, countResetDeassert, countEnableDeassert,
          List.countP_append, hv]

lemma drive_aux_no_deassert (r : Nat → Bool) :
    ∀ (f : Nat) (m : Power),
    countResetDeassert (drive_aux r f m).events = countResetDeassert m.events ∧
    countEnableDeassert (drive_aux r f m).events = countEnableDeassert m.events ∧
    (m.pins.reset = true → (drive_aux r f m).pins.reset = true) ∧
    (m.pins.enable = true → (drive_aux r f m).pins.enable = true) := by
  intro f
  induction f with
  | zero => intro m; exact ⟨rfl, rfl, fun h => h, fun h => h⟩
  | succ f ih =>
    intro m
    have hs := drive_step_no_deassert r m
    by_cases hfix : (drive_step r m).state = m.state
    · rw [drive_aux_eq_of_fix r f m hfix]
      exact hs
    · rw [drive_aux_eq_of_ne r f m hfix]
      have hi := ih (drive_step r m)
      exact ⟨hi.1.trans hs.1, hi.2.1.trans hs.2.1,
             fun h => hi.2.2.1 (hs.2.2.1 h), fun h => hi.2.2.2 (hs.2.2.2 h)⟩

lemma apply_config_no_effects (c : Config) (m : Power) :
    (apply_config c m).events = m.events ∧ (apply_config c m).pins = m.pins := by
  rcases c with ⟨p, a⟩
  rcases p with _ | b
  · simp [apply_config, Config.has_attribute_power]
  · rcases b with _ | _ <;>
      by_cases h : a.getD true = true <;>
      simp [apply_config, Config.has_attribute_power,
            Config.power_attribute_value, Config.at_protocol_value, h]

lemma run_no_deassert (r : Nat → Bool) :
    ∀ (ops : List Op) (m : Power),
    countResetDeassert (run r ops m).events = countResetDeassert m.events ∧
    countEnableDeassert (run r ops m).events = countEnableDeassert m.events ∧
    (m.pins.reset = true → (run r ops m).pins.reset = true) ∧
    (m.pins.enable = true → (run r ops m).pins.enable = true) := by
  intro ops
  induction ops with
  | nil => intro m; exact ⟨rfl, rfl, fun h => h, fun h => h⟩
  | cons op ops ih =>
    intro m
    cases op with
    | configOp c =>
      have hc := apply_config_no_effects c m
      have hi := ih (apply_config c m)
      rw [run]
      refine ⟨?_, ?_, ?_, ?_⟩
      · rw [hi.1, hc.1]
      · rw [hi.2.1, hc.1]
      · intro h; exact hi.2.2.1 (by rw [hc.2]; exact h)
      · intro h; exact hi.2.2.2 (by rw [hc.2]; exact h)
    | driveOp =>
      have hd := drive_aux_no_deassert r 4 m
      have hi := ih (drive_state_transitions r m)
      rw [run]
      exact ⟨hi.1.trans hd.1, hi.2.1.trans hd.2.1,
             fun h => hi.2.2.1 (hd.2.2.1 h), fun h => hi.2.2.2 (hd.2.2.2 h)⟩
    | shutdownOp =>
      have hi := ih (shutdown_triggered m)
      rw [run]
      exact ⟨hi.1, hi.2.1, fun h => hi.2.2.1 h, fun h => hi.2.2.2 h⟩

/-- C1, counterexample: applying the configuration with `power` absent and
`at_protocol = false` to a controller whose state is On yields Desired
Intent Dont-care, not Off as the claim states. -/
theorem apply_config_absent_power_cex :
    (apply_config ⟨none, some false⟩ { power0 with state := State.on }).requested
      = Requested.dontCare ∧ Requested.dontCare ≠ Requested.off := by
  decide

/-- C1 (amended): a configuration whose `power` attribute is absent always
yields Desired Intent Dont-care, regardless of `at_protocol`; Desired
Intent Off results when `power` is present with value false and
`at_protocol` is false. -/
theorem apply_config_off_only_with_present_power :
    ∀ (c : Config) (m : Power),
      (c.power = none → (apply_config c m).requested = Requested.dontCare) ∧
      (c.power = some false → c.at_protocol_value = false →
        (apply_config c m).requested = Requested.off) := by
  intro c m
  rcases c with ⟨p, a⟩
  constructor
  · rintro rfl
    simp [apply_config, Config.has_attribute_power]
  · rintro rfl h
    simp [Config.at_protocol_value] at h
    simp [apply_config, Config.has_attribute_power, Config.power_attribute_value,
          Config.at_protocol_value, h]

/-- Witness for C1 at concrete configurations. -/
theorem apply_config_off_only_with_present_power_witness :
    (apply_config ⟨none, some false⟩ power0).requested = Requested.dontCare ∧
    (apply_config ⟨some false, some false⟩ power0).requested = Requested.off :=
  ⟨(apply_config_off_only_with_present_power ⟨none, some false⟩ power0).1 rfl,
   (apply_config_off_only_with_present_power ⟨some false, some false⟩ power0).2 rfl rfl⟩

/-- C2, counterexample: two apply_config call sequences that end with the
same configuration (`power = false`, `at_protocol = true`) yield different
Desired Intents (On after a prior `power = true` config, Dont-care from the
initial state), so the intent is not a function of the last configuration
alone, and the final configuration does not force Dont-care. -/
theorem apply_config_prior_intent_cex :
    (apply_config ⟨some false, some true⟩
        (apply_config ⟨some true, none⟩ power0)).requested = Requested.on ∧
    (apply_config ⟨some false, some true⟩ power0).requested = Requested.dontCare ∧
    Requested.on ≠ Requested.dontCare := by
  decide

/-- C2 (amended): the Desired Intent after apply_config is a function of
the last configuration and the intent held before the call: absent `power`
gives Dont-care, `power = true` gives On, `power = false` with
`at_protocol = false` gives Off, and `power = false` with `at_protocol`
true (or absent) leaves the prior intent unchanged. -/
theorem apply_config_requested_characterization :
    ∀ (c : Config) (m : Power),
      (apply_config c m).requested = intent_after c m.requested := by
  intro c m
  rcases c with ⟨p, a⟩
  rcases p with _ | b
  · simp [apply_config, intent_after, Config.has_attribute_power]
  · rcases b with _ | _ <;>
      simp [apply_config, intent_after, Config.has_attribute_power,
            Config.power_attribute_value, Config.at_protocol_value] <;>
      by_cases h : a.getD true = true <;> simp [h]

/-- C3, counterexample: from Hardware State Off with Desired Intent On and
`shutdown_seconds = 5`, one drive_state_transitions call leaves
`shutdown_seconds` at 5 (the claim demands both counters reset to 0) and
returns with `startup_seconds = 1`, not 0. -/
theorem drive_from_off_counters_cex :
    (drive_state_transitions (fun _ => true)
        { power0 with requested := Requested.on, state := State.off,
                      startup_seconds := 7, shutdown_seconds := 5 }).shutdown_seconds = 5 ∧
    (drive_state_transitions (fun _ => true)
        { power0 with requested := Requested.on, state := State.off,
                      startup_seconds := 7, shutdown_seconds := 5 }).startup_seconds = 1 ∧
    (5 : Nat) ≠ 0 ∧ (1 : Nat) ≠ 0 := by
  decide

/-- C3 (amended): from Hardware State Off with Desired Intent On, a single
drive_state_transitions call emits exactly the power-key pulse (assert,
blocking delay of 1000 ms, deassert, preceded by the log line), leaves
`shutdown_seconds` unchanged, and at the pulse step resets
`startup_seconds` to 0 and moves the state to Starting-up; the loop then
continues, so the call returns with `startup_seconds = 1` and state
Starting-up when the next status reading is true, or On when it is false. -/
theorem drive_from_off_single_pulse :
    ∀ (r : Nat → Bool) (m : Power),
      m.requested = Requested.on → m.state = State.off →
      (drive_state_transitions r m).events
          = m.events ++ [Event.logMsg "Powering up modem ...",
                         Event.write Pin.pwrkey true,
                         Event.msleep 1000,
                         Event.write Pin.pwrkey false] ∧
      (drive_state_transitions r m).startup_seconds = 1 ∧
      (drive_state_transitions r m).shutdown_seconds = m.shutdown_seconds ∧
      ((drive_state_transitions r m).state
        = if r m.ridx then State.startingUp else State.on) ∧
      (drive_step r m).state = State.startingUp ∧
      (drive_step r m).startup_seconds = 0 ∧
      (drive_step r m).shutdown_seconds = m.shutdown_seconds := by
  intro r m h1 h2
  obtain ⟨req, st, su, sd, ps, ri, ev, tr⟩ := m
  simp at h1 h2
  subst h1; subst h2
  by_cases hv : r ri <;>
    simp [drive_state_transitions, drive_aux, drive_step, drive_power_up,
          update_state_from_pin_status, set_state, pin_write, emit, msleep, hv]

/-- Witness for C3 at a concrete controller state. -/
theorem drive_from_off_single_pulse_witness :
    (drive_state_transitions (fun _ => true)
        { power0 with requested := Requested.on, state := State.off }).events
      = [Event.logMsg "Powering up modem ...", Event.write Pin.pwrkey true,
         Event.msleep 1000, Event.write Pin.pwrkey false] ∧
    (drive_state_transitions (fun _ => true)
        { power0 with requested := Requested.on, state := State.off }).startup_seconds = 1 ∧
    (drive_state_transitions (fun _ => true)
        { power0 with requested := Requested.on, state := State.off }).state
      = State.startingUp := by
  have h := drive_from_off_single_pulse (fun _ => true)
      { power0 with requested := Requested.on, state := State.off } rfl rfl
  refine ⟨?_, h.2.1, ?_⟩
  · have he := h.1
    simpa [power0] using he
  · have hs := h.2.2.2.1
    simpa using hs

/-- C4, counterexample: with Desired Intent Off and Hardware State
Starting-up, a single step moves the state to Shutting-down, an edge absent
from the list given in the claim. -/
theorem drive_step_startup_shutdown_edge_cex :
    (drive_step (fun _ => true)
        { power0 with requested := Requested.off, state := State.startingUp }).state
      = State.shuttingDown ∧
    State.shuttingDown ≠ State.startingUp ∧
    claimed_edge State.startingUp State.shuttingDown = false := by
  decide

/-- C4 (amended): every assignment to Hardware State performed by a single
state-machine step follows the edge relation consisting of the six claimed
edges plus Starting-up to Shutting-down: the chain of assigned values
during one step starts at the current state and each link is an edge. -/
theorem drive_step_trace_edges :
    ∀ (r : Nat → Bool) (m : Power),
      List.Chain (fun a b => edge a b = true) m.state
        ((drive_step r m).strace.drop m.strace.length) := by
  intro r m
  obtain ⟨req, st, su, sd, ps, ri, ev, tr⟩ := m
  cases req <;> cases st <;> by_cases hv : r ri <;>
    simp [drive_step, drive_power_up, drive_power_down,
          update_state_from_pin_status, set_state, pin_write, emit, msleep,
          shutdown_triggered, edge, hv]

/-- C5: once Hardware State matches what Desired Intent implies, a
drive_state_transitions call returns the controller unchanged: no pin
writes, no delays, no status reads, no state or counter changes. -/
theorem drive_noop_after_convergence :
    ∀ (r : Nat → Bool) (m : Power), converged m → drive_state_transitions r m = m := by
  intro r m h
  obtain ⟨req, st, su, sd, ps, ri, ev, tr⟩ := m
  cases req
  · simp [drive_state_transitions, drive_aux, drive_step]
  · simp [converged] at h
    subst h
    simp [drive_state_transitions, drive_aux, drive_step, drive_power_down]
  · simp [converged] at h
    subst h
    simp [drive_state_transitions, drive_aux, drive_step, drive_power_up]

/-- Witness for C5 at a concrete converged controller state. -/
theorem drive_noop_after_convergence_witness :
    converged { power0 with requested := Requested.on, state := State.on } ∧
    drive_state_transitions (fun _ => true)
        { power0 with requested := Requested.on, state := State.on }
      = { power0 with requested := Requested.on, state := State.on } :=
  ⟨rfl, drive_noop_after_convergence (fun _ => true) _ rfl⟩

/-- C6: generate_report always writes the "power" attribute first, with the
string determined by the state (one of the five literals); it writes
"startup_seconds" exactly when the state is Starting-up, writes
"shutdown_seconds" exactly when the state is Shutting-down, and never
writes both counters. -/
theorem generate_report_fields :
    ∀ m : Power,
      (generate_report m).head? = some (Attr.strA "power" (power_value m.state)) ∧
      power_value m.state ∈
        (["unknown", "off", "starting up", "on", "shutting down"] : List String) ∧
      (report_has (generate_report m) "startup_seconds" = true ↔ m.state = State.startingUp) ∧
      (report_has (generate_report m) "shutdown_seconds" = true ↔ m.state = State.shuttingDown) ∧
      (report_has (generate_report m) "startup_seconds"
        && report_has (generate_report m) "shutdown_seconds") = false := by
  intro m
  obtain ⟨req, st, su, sd, ps, ri, ev, tr⟩ := m
  cases st <;>
    simp [generate_report, report_has, power_value, attr_name]

/-- C7: for every desired intent, every starting state and every sequence
of status-line readings, the loop of drive_state_transitions reaches a step
that leaves the state unchanged within 4 iterations: running the loop with
any larger fuel computes the same result. -/
theorem drive_loop_terminates :
    ∀ (r : Nat → Bool) (m : Power) (f : Nat),
      drive_aux r (f + 4) m = drive_state_transitions r m := by
  intro r m f
  have hb := chain_bound_le_two m
  show drive_aux r (f + 4) m = drive_aux r 4 m
  exact drive_aux_bound_congr r (f + 4) 4 m (by omega) (by omega)

/-- C8: resolving Unknown maps a status reading of true to Off and false to
On; from Starting-up (intent On) the confirmation to On fires exactly when
the status line reads false; from Shutting-down (intent Off) the
confirmation to Off fires exactly when the status line reads true. -/
theorem status_line_polarity :
    ∀ (r : Nat → Bool) (m : Power),
      ((update_state_from_pin_status r m).state
        = if r m.ridx then State.off else State.on) ∧
      (m.requested = Requested.on → m.state = State.startingUp →
        ((drive_step r m).state = State.on ↔ r m.ridx = false)) ∧
      (m.requested = Requested.off → m.state = State.shuttingDown →
        ((drive_step r m).state = State.off ↔ r m.ridx = true)) := by
  intro r m
  obtain ⟨req, st, su, sd, ps, ri, ev, tr⟩ := m
  refine ⟨?_, ?_, ?_⟩
  · by_cases hv : r ri <;> simp [update_state_from_pin_status, set_state, hv]
  · intro h1 h2
    simp at h1 h2
    subst h1; subst h2
    by_cases hv : r ri <;>
      simp [drive_step, drive_power_up, set_state, hv]
  · intro h1 h2
    simp at h1 h2
    subst h1; subst h2
    by_cases hv : r ri <;>
      simp [drive_step, drive_power_down, set_state, hv]

/-- Witness for C8 at concrete controller states and readings. -/
theorem status_line_polarity_witness :
    (update_state_from_pin_status (fun _ => true) power0).state = State.off ∧
    (drive_step (fun _ => false)
        { power0 with requested := Requested.on, state := State.startingUp }).state
      = State.on ∧
    (drive_step (fun _ => true)
        { power0 with requested := Requested.off, state := State.shuttingDown }).state
      = State.off := by
  refine ⟨?_, ?_, ?_⟩
  · have h := (status_line_polarity (fun _ => true) power0).1
    simpa using h
  · exact ((status_line_polarity (fun _ => false)
      { power0 with requested := Requested.on, state := State.startingUp }).2.1
        rfl rfl).mpr rfl
  · exact ((status_line_polarity (fun _ => true)
      { power0 with requested := Requested.off, state := State.shuttingDown }).2.2
        rfl rfl).mpr rfl

/-- C9: one drive_state_transitions call issues at most one power-key
assert and at most one blocking delay, for every starting state, intent and
sequence of status readings. -/
theorem drive_at_most_one_pulse :
    ∀ (r : Nat → Bool) (m : Power),
      countPwrkeyAssert (drive_state_transitions r m).events
          ≤ countPwrkeyAssert m.events + 1 ∧
      countSleeps (drive_state_transitions r m).events
          ≤ countSleeps m.events + 1 := by
  intro r m
  obtain ⟨req, st, su, sd, ps, ri, ev, tr⟩ := m
  cases req <;> cases st <;> by_cases hv : r ri <;> by_cases hv2 : r (ri + 1) <;>
    simp [drive_state_transitions, drive_aux, drive_step, drive_power_up,
          drive_power_down, update_state_from_pin_status, set_state,
          pin_write, emit, msleep, shutdown_triggered,
          countPwrkeyAssert, countSleeps, List.countP_append, hv, hv2]

/-- C10: construction drives the reset and RF-enable lines low exactly
once; afterwards no sequence of public operations ever adds another write
driving either line low, and any operation sequence keeps an asserted
reset or RF-enable line asserted, so a power-up pulse following a
controller-driven power-down runs with both lines still asserted. -/
theorem reset_enable_never_deasserted :
    ∀ (p0 : Pins) (r : Nat → Bool) (ops : List Op),
      countResetDeassert (construct p0).events = 1 ∧
      countEnableDeassert (construct p0).events = 1 ∧
      countResetDeassert (run r ops (construct p0)).events = 1 ∧
      countEnableDeassert (run r ops (construct p0)).events = 1 ∧
      ∀ m : Power,
        (m.pins.reset = true → (run r ops m).pins.reset = true) ∧
        (m.pins.enable = true → (run r ops m).pins.enable = true) := by
  intro p0 r ops
  have h := run_no_deassert r ops (construct p0)
  refine ⟨rfl, rfl, h.1.trans rfl, h.2.1.trans rfl, fun m => ?_⟩
  have hm := run_no_deassert r ops m
  exact ⟨hm.2.2.1, hm.2.2.2⟩

/-- Witness for C10 at a concrete operation sequence and pin valuation. -/
theorem reset_enable_never_deasserted_witness :
    countResetDeassert (run (fun _ => true) [Op.driveOp] (construct pins0)).events = 1 ∧
    (run (fun _ => true) [Op.driveOp]
        { power0 with pins := { pins0 with reset := true, enable := true } }).pins.reset
      = true ∧
    (run (fun _ => true) [Op.driveOp]
        { power0 with pins := { pins0 with reset := true, enable := true } }).pins.enable
      = true := by
  have h := reset_enable_never_deasserted pins0 (fun _ => true) [Op.driveOp]
  refine ⟨h.2.2.1, ?_, ?_⟩
  · exact ((h.2.2.2.2 _).1) rfl
  · exact ((h.2.2.2.2 _).2) rfl

end ModemPower
